import Mathlib

/-!
Verification of the CI-generation logic of maturin (src/ci.rs).

The Rust module builds CI pipeline definitions for GitHub and GitLab from a
resolved configuration: the bridge model of the project, the requested
platform list, and feature flags (sdist, pytest, zig, manifest path).  The
definitions below are a shallow embedding of that module.  The GitHub
generator is modelled as a function producing a structured workflow value
(jobs with their matrices and step lists, the sdist job, and the release
job); every conditional of the Rust code is mirrored.  A fallible result
(Option) marks the one panic site of the Rust code, the
manifest_path.parent().unwrap() call.  The GitLab generator is modelled as
the literal text the Rust function formats.
-/

namespace Maturin

/-- Bridge models.  Modelled from the spec: the BridgeModel enum lives
outside this crate slice (only ci.rs is present); per the spec it is a
tagged variant with Bindings, BindingsAbi3 (stable limited API), Cffi,
UniFfi, and Bin with an optional bindings payload. -/
inductive BridgeModel where
  | Bindings (name : String) (minorVer : Nat)
  | BindingsAbi3 (major : Nat) (minor : Nat)
  | Cffi
  | UniFfi
  | Bin (bindings : Option (String × Nat))
deriving DecidableEq, Repr

/-- Modelled from the spec: BridgeModel::is_bin holds exactly for the
standalone-executable variant Bin. -/
def BridgeModel.is_bin : BridgeModel → Bool
  | .Bin _ => true
  | _ => false

/-- Mirrors the matches! test for is_abi3 in generate_github / generate_gitlab
(ci.rs lines 171, 346). -/
def BridgeModel.is_abi3 : BridgeModel → Bool
  | .BindingsAbi3 _ _ => true
  | _ => false

/-- Mirrors the matches! arm of the setup_python computation (ci.rs lines
348-356): every bridge model except a pure binary without bindings needs a
host Python at build time. -/
def BridgeModel.needsPython : BridgeModel → Bool
  | .Bin (some _) => true
  | .Bindings _ _ => true
  | .BindingsAbi3 _ _ => true
  | .Cffi => true
  | .UniFfi => true
  | .Bin none => false

/-- Platform enum of ci.rs (lines 24-40), in declaration order, which is
also the derived Ord order used by the BTreeSet. -/
inductive Platform where
  | All
  | ManyLinux
  | Musllinux
  | Windows
  | Macos
  | Emscripten
deriving DecidableEq, Repr

/-- Platform::defaults (ci.rs lines 43-50). -/
def Platform.defaults : List Platform :=
  [.ManyLinux, .Musllinux, .Windows, .Macos]

/-- Platform::all (ci.rs lines 52-60).  The name of the Rust method is
all; allPlatforms avoids shadowing the anonymous-constructor dot name. -/
def Platform.allPlatforms : List Platform :=
  [.ManyLinux, .Musllinux, .Windows, .Macos, .Emscripten]

/-- Display impl for Platform (ci.rs lines 63-74). -/
def Platform.display : Platform → String
  | .All => "all"
  | .ManyLinux => "linux"
  | .Musllinux => "musllinux"
  | .Windows => "windows"
  | .Macos => "macos"
  | .Emscripten => "emscripten"

/-- The six Platform values in the derived (declaration) order.  BTreeSet
iteration visits its elements in exactly this order. -/
def Platform.canonical : List Platform :=
  [.All, .ManyLinux, .Musllinux, .Windows, .Macos, .Emscripten]

/-- Collecting a list of platforms into a BTreeSet and iterating it:
the distinct elements of the list, in declaration (Ord) order. -/
def btreeSetOfList (l : List Platform) : List Platform :=
  Platform.canonical.filter (fun p => p ∈ l)

/-- A Rust std Path, reduced to what ci.rs uses: components plus an
absolute flag.  Path::parent returns None exactly when the path is a bare
root or empty (no components); Path equality is component equality;
display joins the components. -/
structure RustPath where
  absolute : Bool
  components : List String
deriving DecidableEq, Repr

/-- Path::parent: strips the final component; None on a root or empty path. -/
def RustPath.parent (p : RustPath) : Option RustPath :=
  if p.components.isEmpty then none
  else some ⟨p.absolute, p.components.dropLast⟩

/-- Path display. -/
def RustPath.display (p : RustPath) : String :=
  (if p.absolute then "/" else "") ++ String.intercalate "/" p.components

/-- Path::new applied to the literal Cargo.toml. -/
def cargoToml : RustPath := ⟨false, ["Cargo.toml"]⟩

/-- The matrix entry struct of ci.rs (lines 76-79). -/
structure MatrixPlatform where
  runner : String
  target : String
deriving DecidableEq, Repr

/-- The GenerateCI options that the two generators read (ci.rs lines
82-113); ci and output only route control flow outside the generators. -/
structure GenerateCI where
  manifest_path : Option RustPath
  platforms : List Platform
  pytest : Bool
  zig : Bool
deriving DecidableEq, Repr

/-- Default platform list of GenerateCI (ci.rs lines 99-105). -/
def defaultPlatforms : List Platform :=
  [.ManyLinux, .Musllinux, .Windows, .Macos]

/-- One step of a GitHub job.  Each constructor stands for one literal
push_str block of generate_github; the fields are exactly the values the
Rust code splices into that block. -/
inductive Step where
  | checkout
  | installPyodideBuild
  | emscriptenVersionInfo
  | setupEmsdk
  | setupPythonEmscripten
  | setupPython (pinArch : Bool)
  | buildWheels (args : List String) (manylinux : Option String)
      (rustToolchain : Option String)
  | uploadWheels (name : String)
  | setupNode
  | pytestManylinuxHost (project : String) (chdir : String)
  | pytestManylinuxQemu (project : String) (chdir : String)
  | pytestMusllinuxDocker (project : String) (chdir : String)
  | pytestMusllinuxQemu (project : String) (chdir : String)
  | pytestWindows (project : String) (chdir : String)
  | pytestMacos (project : String) (chdir : String)
  | pytestEmscripten (project : String) (chdir : String)
deriving DecidableEq, Repr

/-- A platform job of the GitHub workflow. -/
structure Job where
  name : String
  matrix : List MatrixPlatform
  steps : List Step
deriving DecidableEq, Repr

/-- The release job of the GitHub workflow: its needs list and whether the
two Emscripten-only blocks (contents-write permission, wasm wheel upload
to the GitHub release) are present. -/
structure ReleaseJob where
  needs : List String
  contentsWrite : Bool
  wasmUpload : Bool
deriving DecidableEq, Repr

/-- The structured GitHub workflow generate_github produces: the
gen_cmd-dependent header text, the platform jobs in emission order, the
optional sdist job (holding its extra maturin argument text), and the
release job. -/
structure GithubOutput where
  header : String
  jobs : List Job
  sdistJob : Option String
  release : ReleaseJob
deriving DecidableEq, Repr

/-- Package version constant.  Modelled from the spec: CARGO_PKG_VERSION is
a build-time constant outside ci.rs; its value never influences any
decision, only the header text. -/
def maturinVersion : String := "1.0.0"

/-- The gen_cmd computation (ci.rs lines 357-370 and 182-195): argv with
argv[0] replaced by the package name, joined by spaces; a maturin new /
maturin init invocation is rewritten to a plain generate-ci command. -/
def genCmdOf (argv : List String) (provider : String) : String :=
  let cmd := String.intercalate " "
    (match argv with
     | [] => []
     | _ :: rest => "maturin" :: rest)
  if cmd.startsWith "maturin new" || cmd.startsWith "maturin init" then
    "maturin generate-ci " ++ provider
  else
    cmd

/-- Platform expansion (ci.rs lines 397-411): flat_map the requested list,
replacing the All wildcard by Platform::all for bound-extension bridges and
Platform::defaults for binaries, then collect into a BTreeSet. -/
def expandedPlatforms (bridge_model : BridgeModel) (requested : List Platform) :
    List Platform :=
  btreeSetOfList
    (requested.flatMap (fun p =>
      if p = Platform.All then
        if !bridge_model.is_bin then Platform.allPlatforms else Platform.defaults
      else [p]))

/-- The platforms the job loop actually emits (ci.rs lines 412-415): the
expanded set minus Emscripten when the bridge model is a binary. -/
def emittedPlatforms (bridge_model : BridgeModel) (requested : List Platform) :
    List Platform :=
  (expandedPlatforms bridge_model requested).filter
    (fun p => !(bridge_model.is_bin && p = Platform.Emscripten))

/-- Target matrix table (ci.rs lines 423-462). -/
def targetsFor : Platform → List MatrixPlatform
  | .ManyLinux =>
      ["x86_64", "x86", "aarch64", "armv7", "s390x", "ppc64le"].map
        (fun t => ⟨"ubuntu-latest", t⟩)
  | .Musllinux =>
      ["x86_64", "x86", "aarch64", "armv7"].map (fun t => ⟨"ubuntu-latest", t⟩)
  | .Windows => ["x64", "x86"].map (fun t => ⟨"windows-latest", t⟩)
  | .Macos => [⟨"macos-12", "x86_64"⟩, ⟨"macos-14", "aarch64"⟩]
  | .Emscripten => [⟨"ubuntu-latest", "wasm32-unknown-emscripten"⟩]
  | .All => []

/-- Environment-setup steps (ci.rs lines 482-520): the two-phase Emscripten
setup, or a single setup-python step when setup_python holds, pinning the
architecture on Windows. -/
def setupStepsFor (platform : Platform) (setup_python : Bool) : List Step :=
  if platform = Platform.Emscripten then
    [.installPyodideBuild, .emscriptenVersionInfo, .setupEmsdk,
     .setupPythonEmscripten, .installPyodideBuild]
  else if setup_python then
    [.setupPython (platform = Platform.Windows)]
  else []

/-- The manifest-path argument pair (ci.rs lines 530-535). -/
def manifestArgs (manifest_path : Option RustPath) : List String :=
  match manifest_path with
  | some p => if p ≠ cargoToml then ["--manifest-path", p.display] else []
  | none => []

/-- The maturin_args computation of the build step (ci.rs lines 523-538). -/
def maturinArgsFor (is_abi3 is_bin setup_python : Bool) (platform : Platform)
    (manifest_path : Option RustPath) (zig : Bool) : List String :=
  let base : List String :=
    if is_abi3 || (is_bin && !setup_python) then []
    else if platform = Platform.Emscripten then
      ["-i", "$\x7b\x7b env.PYTHON_VERSION \x7d\x7d"]
    else ["--find-interpreter"]
  let withManifest := base ++ manifestArgs manifest_path
  if zig && platform = Platform.ManyLinux then withManifest ++ ["--zig"]
  else withManifest

/-- The manylinux field of the build step (ci.rs lines 553-564). -/
def manylinuxTagFor : Platform → Option String
  | .ManyLinux => some "auto"
  | .Musllinux => some "musllinux_1_2"
  | _ => none

/-- The rust-toolchain field of the build step (ci.rs lines 553-564). -/
def rustToolchainFor : Platform → Option String
  | .Emscripten => some "nightly"
  | _ => none

/-- The upload-artifact name (ci.rs lines 566-569). -/
def artifactNameFor (platform : Platform) : String :=
  match platform with
  | .Emscripten => "wasm-wheels"
  | _ => "wheels-" ++ platform.display ++ "-$\x7b\x7b matrix.platform.target \x7d\x7d"

/-- The chdir prefix used by the pytest steps (ci.rs lines 579-585); none
models the panic of manifest_path.parent().unwrap() on a parentless path. -/
def chdirOf (manifest_path : Option RustPath) : Option String :=
  match manifest_path with
  | none => some ""
  | some p =>
      if p ≠ cargoToml then
        match p.parent with
        | none => none
        | some parent => some ("cd " ++ parent.display ++ " && ")
      else some ""

/-- The pytest steps per platform (ci.rs lines 586-710). -/
def pytestStepsFor (platform : Platform) (project chdir : String) : List Step :=
  match platform with
  | .All => []
  | .ManyLinux => [.pytestManylinuxHost project chdir,
                   .pytestManylinuxQemu project chdir]
  | .Musllinux => [.pytestMusllinuxDocker project chdir,
                   .pytestMusllinuxQemu project chdir]
  | .Windows => [.pytestWindows project chdir]
  | .Macos => [.pytestMacos project chdir]
  | .Emscripten => [.setupNode, .pytestEmscripten project chdir]

/-- One platform job of generate_github (ci.rs lines 416-713), given the
already-computed chdir prefix. -/
def jobFor (pytest zig : Bool) (manifest_path : Option RustPath)
    (is_abi3 is_bin setup_python : Bool) (project : String) (chdir : String)
    (platform : Platform) : Job :=
  { name := platform.display
    matrix := targetsFor platform
    steps :=
      [Step.checkout]
        ++ setupStepsFor platform setup_python
        ++ [Step.buildWheels
              (maturinArgsFor is_abi3 is_bin setup_python platform manifest_path zig)
              (manylinuxTagFor platform) (rustToolchainFor platform),
            Step.uploadWheels (artifactNameFor platform)]
        ++ (if pytest then pytestStepsFor platform project chdir else []) }

/-- The extra maturin argument text of the sdist job (ci.rs lines 719-729). -/
def sdistArgs (manifest_path : Option RustPath) : String :=
  match manifest_path with
  | some p =>
      if p ≠ cargoToml then " --manifest-path " ++ p.display else ""
  | none => ""

/-- The workflow-file header (ci.rs lines 371-394). -/
def githubHeader (gen_cmd : String) : String :=
  "# This file is autogenerated by maturin v" ++ maturinVersion
    ++ "\n# To update, run\n#\n#    " ++ gen_cmd
    ++ "\n#\nname: CI\n\non:\n  push:\n    branches:\n      - main\n      - master\n    tags:\n      - \x27*\x27\n  pull_request:\n  workflow_dispatch:\n\npermissions:\n  contents: read\n\njobs:\n"

/-- The workflow value generate_github assembles once the chdir prefix is
known (the body of ci.rs lines 371-793): the header, one job per emitted
platform in BTreeSet order, the optional sdist job, and the release job
whose needs list is the emitted job names followed by sdist, and whose two
Emscripten blocks are keyed on membership of Emscripten in the expanded
(pre-exclusion) platform set. -/
def githubOutputOf (cfg : GenerateCI) (project_name : String)
    (bridge_model : BridgeModel) (sdist : Bool) (argv : List String)
    (chdir : String) : GithubOutput :=
  let is_abi3 := bridge_model.is_abi3
  let is_bin := bridge_model.is_bin
  let setup_python := cfg.pytest || bridge_model.needsPython
  let gen_cmd := genCmdOf argv "github"
  let platforms := expandedPlatforms bridge_model cfg.platforms
  let emitted := emittedPlatforms bridge_model cfg.platforms
  { header := githubHeader gen_cmd
    jobs := emitted.map
      (jobFor cfg.pytest cfg.zig cfg.manifest_path is_abi3 is_bin
        setup_python project_name chdir)
    sdistJob := if sdist then some (sdistArgs cfg.manifest_path) else none
    release :=
      { needs := emitted.map Platform.display ++ (if sdist then ["sdist"] else [])
        contentsWrite := platforms.contains Platform.Emscripten
        wasmUpload := platforms.contains Platform.Emscripten } }

/-- GenerateCI::generate_github (ci.rs lines 340-794).  Returns none
exactly when the Rust code panics: a configured manifest path other than
Cargo.toml with no parent, observed inside the job loop (so only when at
least one platform job is emitted; with no emitted platform the loop body
never runs and the chdir prefix is never computed). -/
def generate_github (cfg : GenerateCI) (project_name : String)
    (bridge_model : BridgeModel) (sdist : Bool) (argv : List String) :
    Option GithubOutput :=
  match chdirOf cfg.manifest_path with
  | some chdir => some (githubOutputOf cfg project_name bridge_model sdist argv chdir)
  | none =>
      if (emittedPlatforms bridge_model cfg.platforms).isEmpty then
        some (githubOutputOf cfg project_name bridge_model sdist argv "")
      else none

/-- GenerateCI::generate_gitlab (ci.rs lines 165-338): the returned text is
the fixed three-stage template, parameterized only by the version constant
and gen_cmd; the bridge-model and flag locals are computed and never used,
exactly as in the Rust function. -/
def generate_gitlab (cfg : GenerateCI) (project_name : String)
    (bridge_model : BridgeModel) (sdist : Bool) (argv : List String) : String :=
  let _is_abi3 := bridge_model.is_abi3
  let _is_bin := bridge_model.is_bin
  let _setup_python := cfg.pytest || bridge_model.needsPython
  let _project_name := project_name
  let _sdist := sdist
  let gen_cmd := genCmdOf argv "gitlab"
  "# This file is autogenerated by maturin v" ++ maturinVersion
    ++ "\n# To update, run\n#\n#    " ++ gen_cmd
    ++ "\n#\ndefault:\n  interruptible: true\n  cache:\n    paths:\n      - .cache/pip\n      - .cargo/bin\n      - .cargo/registry/index\n      - .cargo/registry/cache\n      - target/debug/deps\n      - target/debug/build\n\nvariables:\n    CARGO_HOME: \x27$CI_PROJECT_DIR/.cargo\x27\n    PIP_CACHE_DIR: \x27$CI_PROJECT_DIR/.cache/pip\x27\n\nstages: \n  - test\n  - build\n  - release\n\ntest:\n  stage: test\n  image: \n    name: ghcr.io/pyo3/maturin:latest\n    entrypoint: [\x27\x27]\n  parallel:\n    matrix:\n      - PYTHON_VERSION:\n        - python3.8\n        - python3.9\n        - python3.10\n        - python3.11\n        - python3.12\n  before_script:\n    - $PYTHON_VERSION -m venv venv\n    - source venv/bin/activate\n    - maturin develop\n    - pip install pytest\n  script:\n    - pytest\n\nbuild-linux:\n  needs: [\x27test\x27]\n  stage: build\n  image: \n    name: ghcr.io/pyo3/maturin:latest\n    entrypoint: [\x27\x27]\n  parallel:\n    matrix:\n      # tier 1 targets, see https://doc.rust-lang.org/beta/rustc/platform-support.html\n      - TARGET:\n        - x86_64-unknown-linux-gnu\n        - x86_64-unknown-linux-musl\n        - aarch64-unknown-linux-gnu\n        - aarch64-unknown-linux-musl\n        - i686-unknown-linux-gnu\n  before_script:\n    - python3.8 -m venv venv\n    - source venv/bin/activate\n    - pip install ziglang\n    - rustup target add $TARGET\n  script:\n    - maturin build -i python3.8 -i python3.9 -i python3.10 -i python3.11 -i python3.12 --release --target $TARGET --zig\n  artifacts:\n    paths:\n      - target/wheels/*.whl\n\nbuild-macos:\n  needs: [\x27test\x27]\n  stage: build\n  image: \n    name: ghcr.io/pyo3/maturin:latest\n    entrypoint: [\x27\x27]\n  parallel:\n    matrix:\n      - TARGET:\n        - x86_64-apple-darwin\n  before_script:\n    - python3.8 -m venv venv\n    - source venv/bin/activate\n    - pip install ziglang\n    - rustup target add $TARGET\n  script:\n    - maturin build -i python3.8 -i python3.9 -i python3.10 -i python3.11 -i python3.12 --release --target $TARGET --zig\n  artifacts:\n    paths:\n      - target/wheels/*.whl\n\nbuild-windows:\n  needs: [\x27test\x27]\n  stage: build\n  image: \n    name: ghcr.io/pyo3/maturin:latest\n    entrypoint: [\x27\x27]\n  parallel:\n    matrix:\n      - TARGET:\n        - x86_64-pc-windows-msvc\n  before_script:\n    - python3.8 -m venv venv\n    - source venv/bin/activate\n    - pip install ziglang\n    - rustup target add $TARGET\n    # required for windows support\n    - cargo add pyo3 -F generate-import-lib\n    - export ZIG_COMMAND=\x27python -m ziglang\x27\n  script:\n    - maturin build -i python3.8 -i python3.9 -i python3.10 -i python3.11 -i python3.12 --release --target $TARGET\n  artifacts:\n    paths:\n      - target/wheels/*.whl\n  \npublish:\n  stage: release\n  image: \n    name: ghcr.io/pyo3/maturin:latest\n    entrypoint: [\x27\x27]\n  needs: [\x27build-linux\x27, \x27build-macos\x27, \x27build-windows\x27, \x27test\x27]\n  rules:\n    - if: $CI_COMMIT_TAG\n    - if: $CI_COMMIT_BRANCH == $CI_DEFAULT_BRANCH\n    - if: $CI_PIPELINE_SOURCE == \x27push\x27\n      when: manual\n      allow_failure: true\n  script:\n    - maturin publish --non-interactive --skip-existing"

/-- CI providers (ci.rs lines 14-21). -/
inductive Provider where
  | GitHub
  | GitLab
deriving DecidableEq, Repr

/-- The result of one generation call: GitHub gives the structured
workflow, GitLab the literal text. -/
inductive GeneratedConf where
  | github (out : GithubOutput)
  | gitlab (text : String)
deriving DecidableEq, Repr

/-- The provider dispatch of GenerateCI::generate (ci.rs lines 159-162). -/
def generate (provider : Provider) (cfg : GenerateCI) (project_name : String)
    (bridge_model : BridgeModel) (sdist : Bool) (argv : List String) :
    Option GeneratedConf :=
  match provider with
  | .GitHub =>
      (generate_github cfg project_name bridge_model sdist argv).map .github
  | .GitLab =>
      some (.gitlab (generate_gitlab cfg project_name bridge_model sdist argv))

/-- Appends the cross-compilation flag to a build step, leaving every other
step unchanged; used to state the frame effect of the zig flag. -/
def addZigToStep : Step → Step
  | .buildWheels args ml rt => .buildWheels (args ++ ["--zig"]) ml rt
  | s => s

/-- Applies addZigToStep to every step of a job. -/
def addZigToJob (j : Job) : Job :=
  { j with steps := j.steps.map addZigToStep }

/-! ### Helper lemmas -/

theorem mem_canonical (p : Platform) : p ∈ Platform.canonical := by
  cases p <;> simp [Platform.canonical]

theorem nodup_canonical : Platform.canonical.Nodup := by decide

theorem mem_btreeSetOfList {q : Platform} {l : List Platform} :
    q ∈ btreeSetOfList l ↔ q ∈ l := by
  simp [btreeSetOfList, List.mem_filter, mem_canonical]

theorem nodup_btreeSetOfList (l : List Platform) : (btreeSetOfList l).Nodup :=
  nodup_canonical.filter _

theorem mem_expandedPlatforms {b : BridgeModel} {req : List Platform}
    {q : Platform} :
    q ∈ expandedPlatforms b req ↔
      ∃ p ∈ req,
        q ∈ (if p = Platform.All then
               if !b.is_bin then Platform.allPlatforms else Platform.defaults
             else [p]) := by
  simp [expandedPlatforms, mem_btreeSetOfList, List.mem_flatMap]

theorem mem_emittedPlatforms {b : BridgeModel} {req : List Platform}
    {q : Platform} :
    q ∈ emittedPlatforms b req ↔
      q ∈ expandedPlatforms b req ∧ ¬(b.is_bin = true ∧ q = Platform.Emscripten) := by
  simp only [emittedPlatforms, List.mem_filter]
  constructor
  · rintro ⟨hq, hb⟩
    refine ⟨hq, ?_⟩
    rintro ⟨h1, h2⟩
    simp [h1, h2] at hb
  · rintro ⟨hq, hb⟩
    refine ⟨hq, ?_⟩
    cases h1 : b.is_bin with
    | false => simp [h1]
    | true =>
        have h2 : q ≠ Platform.Emscripten := fun h => hb ⟨h1, h⟩
        simp [h1, h2]

theorem display_eq_linux {p : Platform} :
    p.display = "linux" ↔ p = Platform.ManyLinux := by
  cases p <;> simp [Platform.display]

theorem display_eq_musllinux {p : Platform} :
    p.display = "musllinux" ↔ p = Platform.Musllinux := by
  cases p <;> simp [Platform.display]

theorem display_eq_emscripten {p : Platform} :
    p.display = "emscripten" ↔ p = Platform.Emscripten := by
  cases p <;> simp [Platform.display]

theorem generate_github_some {cfg : GenerateCI} {project_name : String}
    {bridge_model : BridgeModel} {sdist : Bool} {argv : List String}
    {out : GithubOutput}
    (h : generate_github cfg project_name bridge_model sdist argv = some out) :
    ∃ chdir, out = githubOutputOf cfg project_name bridge_model sdist argv chdir := by
  unfold generate_github at h
  cases hc : chdirOf cfg.manifest_path with
  | some ch =>
      rw [hc] at h
      simp only [Option.some.injEq] at h
      exact ⟨ch, h.symm⟩
  | none =>
      rw [hc] at h
      by_cases he : (emittedPlatforms bridge_model cfg.platforms).isEmpty
      · simp only [he, if_true, Option.some.injEq] at h
        exact ⟨"", h.symm⟩
      · simp [he] at h

theorem githubOutputOf_jobs (cfg : GenerateCI) (project_name : String)
    (bridge_model : BridgeModel) (sdist : Bool) (argv : List String)
    (chdir : String) :
    (githubOutputOf cfg project_name bridge_model sdist argv chdir).jobs =
      (emittedPlatforms bridge_model cfg.platforms).map
        (jobFor cfg.pytest cfg.zig cfg.manifest_path bridge_model.is_abi3
          bridge_model.is_bin (cfg.pytest || bridge_model.needsPython)
          project_name chdir) := rfl

theorem githubOutputOf_needs (cfg : GenerateCI) (project_name : String)
    (bridge_model : BridgeModel) (sdist : Bool) (argv : List String)
    (chdir : String) :
    (githubOutputOf cfg project_name bridge_model sdist argv chdir).release.needs =
      (emittedPlatforms bridge_model cfg.platforms).map Platform.display
        ++ (if sdist then ["sdist"] else []) := rfl

theorem jobFor_name (pytest zig : Bool) (manifest_path : Option RustPath)
    (is_abi3 is_bin setup_python : Bool) (project chdir : String)
    (platform : Platform) :
    (jobFor pytest zig manifest_path is_abi3 is_bin setup_python project
      chdir platform).name = platform.display := rfl

/-! ### Claim theorems -/

/-- C1: for every platform list containing the wildcard All, the expanded
concrete platform set produced before job emission is duplicate-free and
consists exactly of the wildcard expansion — ManyLinux, Musllinux, Windows,
Macos for a standalone-binary bridge model, those four plus Emscripten for
every other bridge model — unioned with the non-wildcard entries, which
pass through unchanged. -/
theorem wildcard_expansion_exact (bridge_model : BridgeModel)
    (requested : List Platform) (hAll : Platform.All ∈ requested) :
    (expandedPlatforms bridge_model requested).Nodup ∧
      ∀ q, q ∈ expandedPlatforms bridge_model requested ↔
        (q ∈ (if bridge_model.is_bin then Platform.defaults
              else Platform.allPlatforms)
          ∨ (q ∈ requested ∧ q ≠ Platform.All)) := by
  refine ⟨nodup_btreeSetOfList _, fun q => ?_⟩
  rw [mem_expandedPlatforms]
  constructor
  · rintro ⟨p, hp, hq⟩
    by_cases hpAll : p = Platform.All
    · subst hpAll
      simp only [if_pos rfl] at hq
      left
      cases hb : bridge_model.is_bin <;> simp_all
    · right
      simp only [if_neg hpAll, List.mem_singleton] at hq
      subst hq
      exact ⟨hp, hpAll⟩
  · rintro (hq | ⟨hq, hqAll⟩)
    · refine ⟨Platform.All, hAll, ?_⟩
      simp only [if_pos rfl]
      cases hb : bridge_model.is_bin <;> simp_all
    · exact ⟨q, hq, by simp [hqAll]⟩

/-- C1 witness: at the concrete input All plus Emscripten with a
binary bridge model, the expansion law holds. -/
theorem wildcard_expansion_exact_witness :
    Platform.All ∈ [Platform.All, Platform.Emscripten] ∧
      ((expandedPlatforms (BridgeModel.Bin none)
          [Platform.All, Platform.Emscripten]).Nodup ∧
        ∀ q, q ∈ expandedPlatforms (BridgeModel.Bin none)
            [Platform.All, Platform.Emscripten] ↔
          (q ∈ (if (BridgeModel.Bin none).is_bin then Platform.defaults
                else Platform.allPlatforms)
            ∨ (q ∈ [Platform.All, Platform.Emscripten] ∧ q ≠ Platform.All))) :=
  ⟨by decide,
   wildcard_expansion_exact (BridgeModel.Bin none)
     [Platform.All, Platform.Emscripten] (by decide)⟩

/-- C2: for every standalone-binary bridge model and every requested
platform list that explicitly contains Emscripten, the generated workflow
has no job named emscripten and no emscripten entry in the release job's
needs list. -/
theorem bin_no_emscripten_job (cfg : GenerateCI) (project_name : String)
    (bridge_model : BridgeModel) (sdist : Bool) (argv : List String)
    (out : GithubOutput) (hbin : bridge_model.is_bin = true)
    (hreq : Platform.Emscripten ∈ cfg.platforms)
    (hgen : generate_github cfg project_name bridge_model sdist argv = some out) :
    "emscripten" ∉ out.jobs.map Job.name ∧
      "emscripten" ∉ out.release.needs := by
  obtain ⟨chdir, rfl⟩ := generate_github_some hgen
  have hnames : ∀ p ∈ emittedPlatforms bridge_model cfg.platforms,
      Platform.display p ≠ "emscripten" := by
    intro p hp hdisp
    rw [display_eq_emscripten] at hdisp
    subst hdisp
    exact (mem_emittedPlatforms.mp hp).2 ⟨hbin, rfl⟩
  constructor
  · rw [githubOutputOf_jobs, List.map_map]
    intro hmem
    obtain ⟨p, hp, hdisp⟩ := List.mem_map.mp hmem
    exact hnames p hp hdisp
  · rw [githubOutputOf_needs]
    intro hmem
    rcases List.mem_append.mp hmem with hmem | hmem
    · obtain ⟨p, hp, hdisp⟩ := List.mem_map.mp hmem
      exact hnames p hp hdisp
    · cases sdist <;> simp_all

/-- C2 witness: a binary bridge model with Emscripten explicitly requested
alongside ManyLinux yields a workflow without an emscripten job. -/
theorem bin_no_emscripten_job_witness :
    (BridgeModel.Bin none).is_bin = true ∧
      Platform.Emscripten ∈ [Platform.ManyLinux, Platform.Emscripten] ∧
      ∃ out, generate_github ⟨none, [Platform.ManyLinux, Platform.Emscripten],
          false, false⟩ "example" (BridgeModel.Bin none) true ["maturin"] = some out ∧
        "emscripten" ∉ out.jobs.map Job.name ∧
        "emscripten" ∉ out.release.needs :=
  ⟨rfl, by decide,
   githubOutputOf ⟨none, [Platform.ManyLinux, Platform.Emscripten], false,
     false⟩ "example" (BridgeModel.Bin none) true ["maturin"] "",
   rfl,
   bin_no_emscripten_job
     ⟨none, [Platform.ManyLinux, Platform.Emscripten], false, false⟩
     "example" (BridgeModel.Bin none) true ["maturin"] _ rfl (by decide) rfl⟩

/-- C3: the release job's needs list equals, in order, the names of the
emitted platform jobs, followed by sdist exactly when the sdist flag is
set. -/
theorem release_needs_exact (cfg : GenerateCI) (project_name : String)
    (bridge_model : BridgeModel) (sdist : Bool) (argv : List String)
    (out : GithubOutput)
    (hgen : generate_github cfg project_name bridge_model sdist argv = some out) :
    out.release.needs =
      out.jobs.map Job.name ++ (if sdist then ["sdist"] else []) := by
  obtain ⟨chdir, rfl⟩ := generate_github_some hgen
  rw [githubOutputOf_needs, githubOutputOf_jobs, List.map_map]
  rfl

/-- C3 witness: for the default configuration with sdist enabled, the
needs list is the four platform job names followed by sdist. -/
theorem release_needs_exact_witness :
    ∃ out, generate_github ⟨none, defaultPlatforms, false, false⟩ "example"
        (BridgeModel.Bindings "pyo3" 7) true ["maturin"] = some out ∧
      out.release.needs =
        out.jobs.map Job.name ++ (if true then ["sdist"] else []) :=
  ⟨githubOutputOf ⟨none, defaultPlatforms, false, false⟩ "example"
     (BridgeModel.Bindings "pyo3" 7) true ["maturin"] "",
   rfl,
   release_needs_exact ⟨none, defaultPlatforms, false, false⟩ "example"
     (BridgeModel.Bindings "pyo3" 7) true ["maturin"] _ rfl⟩

/-- C4 counterexample: with a standalone-binary bridge model and an
explicit Emscripten request, the generated job list is empty — no
Emscripten job participates — yet the release job still carries the
contents-write permission and the wasm-wheel upload step, contradicting
the claimed equivalence with Emscripten participation. -/
theorem wasm_upload_bin_counterexample :
    (generate_github ⟨none, [Platform.Emscripten], false, false⟩ "example"
        (BridgeModel.Bin none) false ["maturin"]).map
      (fun o => (o.jobs.map Job.name, o.release.wasmUpload,
        o.release.contentsWrite)) = some ([], true, true) := by
  rfl

/-- C4 amended: the release job carries the wasm-wheel upload step and the
contents-write permission exactly when Emscripten belongs to the expanded
platform set computed before the binary-bridge exclusion; for a binary
bridge with Emscripten explicitly requested the blocks are therefore
present even though no Emscripten job was emitted. -/
theorem wasm_upload_iff_expanded (cfg : GenerateCI) (project_name : String)
    (bridge_model : BridgeModel) (sdist : Bool) (argv : List String)
    (out : GithubOutput)
    (hgen : generate_github cfg project_name bridge_model sdist argv = some out) :
    (out.release.wasmUpload = true ↔
      Platform.Emscripten ∈ expandedPlatforms bridge_model cfg.platforms) ∧
      out.release.contentsWrite = out.release.wasmUpload := by
  obtain ⟨chdir, rfl⟩ := generate_github_some hgen
  refine ⟨?_, rfl⟩
  show (expandedPlatforms bridge_model cfg.platforms).contains
      Platform.Emscripten = true ↔ _
  simp

/-- C4 amended witness: for a bound-extension bridge model requesting only
Emscripten, the upload block is present and Emscripten is in the expanded
set. -/
theorem wasm_upload_iff_expanded_witness :
    ∃ out, generate_github ⟨none, [Platform.Emscripten], false, false⟩
        "example" (BridgeModel.Cffi) false ["maturin"] = some out ∧
      ((out.release.wasmUpload = true ↔
        Platform.Emscripten ∈ expandedPlatforms BridgeModel.Cffi
          [Platform.Emscripten]) ∧
        out.release.contentsWrite = out.release.wasmUpload) :=
  ⟨githubOutputOf ⟨none, [Platform.Emscripten], false, false⟩ "example"
     (BridgeModel.Cffi) false ["maturin"] "",
   rfl,
   wasm_upload_iff_expanded ⟨none, [Platform.Emscripten], false, false⟩
     "example" (BridgeModel.Cffi) false ["maturin"] _ rfl⟩

/-- C5 counterexample: for the default configuration the Musllinux job's
matrix is x86_64, x86, aarch64, armv7 — it contains the x86 target, so the
x86 target does not belong to ManyLinux only and the Musllinux matrix is
not exactly the three claimed targets. -/
theorem musllinux_matrix_counterexample :
    (generate_github ⟨none, defaultPlatforms, false, false⟩ "example"
        (BridgeModel.Bindings "pyo3" 7) true ["maturin"]).map
      (fun o => o.jobs.map (fun j => (j.name, j.matrix.map MatrixPlatform.target)))
      = some
        [("linux", ["x86_64", "x86", "aarch64", "armv7", "s390x", "ppc64le"]),
         ("musllinux", ["x86_64", "x86", "aarch64", "armv7"]),
         ("windows", ["x64", "x86"]),
         ("macos", ["x86_64", "aarch64"])] := by
  rfl

/-- C5 amended: when the expanded platform set contains the Linux
platforms, the ManyLinux job's matrix is exactly the six targets x86_64,
x86, aarch64, armv7, s390x, ppc64le on the ubuntu-latest runner, and the
Musllinux job's matrix is exactly the four targets x86_64, x86, aarch64,
armv7 on the same runner — the x86 target appears in both Linux jobs. -/
theorem linux_matrices_amended (cfg : GenerateCI) (project_name : String)
    (bridge_model : BridgeModel) (sdist : Bool) (argv : List String)
    (out : GithubOutput)
    (hgen : generate_github cfg project_name bridge_model sdist argv = some out)
    (hml : Platform.ManyLinux ∈ expandedPlatforms bridge_model cfg.platforms)
    (hmu : Platform.Musllinux ∈ expandedPlatforms bridge_model cfg.platforms) :
    (∀ j ∈ out.jobs,
      (j.name = "linux" →
        j.matrix = [⟨"ubuntu-latest", "x86_64"⟩, ⟨"ubuntu-latest", "x86"⟩,
          ⟨"ubuntu-latest", "aarch64"⟩, ⟨"ubuntu-latest", "armv7"⟩,
          ⟨"ubuntu-latest", "s390x"⟩, ⟨"ubuntu-latest", "ppc64le"⟩]) ∧
      (j.name = "musllinux" →
        j.matrix = [⟨"ubuntu-latest", "x86_64"⟩, ⟨"ubuntu-latest", "x86"⟩,
          ⟨"ubuntu-latest", "aarch64"⟩, ⟨"ubuntu-latest", "armv7"⟩])) ∧
      (∃ j ∈ out.jobs, j.name = "linux") ∧
      (∃ j ∈ out.jobs, j.name = "musllinux") := by
  obtain ⟨chdir, rfl⟩ := generate_github_some hgen
  rw [githubOutputOf_jobs]
  refine ⟨?_, ?_, ?_⟩
  · intro j hj
    obtain ⟨p, hp, rfl⟩ := List.mem_map.mp hj
    rw [jobFor_name]
    constructor
    · intro hname
      rw [display_eq_linux] at hname
      subst hname
      rfl
    · intro hname
      rw [display_eq_musllinux] at hname
      subst hname
      rfl
  · refine ⟨_, List.mem_map_of_mem _ (mem_emittedPlatforms.mpr ⟨hml, ?_⟩), rfl⟩
    rintro ⟨-, h⟩
    exact Platform.noConfusion h
  · refine ⟨_, List.mem_map_of_mem _ (mem_emittedPlatforms.mpr ⟨hmu, ?_⟩), rfl⟩
    rintro ⟨-, h⟩
    exact Platform.noConfusion h

/-- C5 amended witness: the default configuration contains both Linux
platforms and exhibits both matrices. -/
theorem linux_matrices_amended_witness :
    ∃ out, generate_github ⟨none, defaultPlatforms, false, false⟩ "example"
        (BridgeModel.Bindings "pyo3" 7) true ["maturin"] = some out ∧
      ((∃ j ∈ out.jobs, j.name = "linux") ∧
        ∃ j ∈ out.jobs, j.name = "musllinux") :=
  ⟨githubOutputOf ⟨none, defaultPlatforms, false, false⟩ "example"
     (BridgeModel.Bindings "pyo3" 7) true ["maturin"] "",
   rfl,
   ((linux_matrices_amended ⟨none, defaultPlatforms, false, false⟩ "example"
       (BridgeModel.Bindings "pyo3" 7) true ["maturin"] _ rfl (by decide)
       (by decide)).2 : _)⟩

theorem find_interpreter_not_mem_manifestArgs {mp : Option RustPath}
    (hmp : ∀ p, mp = some p → p.display ≠ "--find-interpreter") :
    "--find-interpreter" ∉ manifestArgs mp := by
  cases mp with
  | none => simp [manifestArgs]
  | some q =>
      have hq := hmp q rfl
      by_cases hc : q = cargoToml
      · simp [manifestArgs, hc]
      · have harg : manifestArgs (some q) = ["--manifest-path", q.display] := by
          simp [manifestArgs, hc]
        rw [harg]
        intro h
        rcases List.mem_cons.mp h with h | h
        · exact absurd h (by decide)
        · exact hq (List.mem_singleton.mp h).symm

theorem find_interpreter_not_mem_args (sp : Bool) (p : Platform)
    (mp : Option RustPath) (zig : Bool)
    (hmp : ∀ q, mp = some q → q.display ≠ "--find-interpreter") :
    "--find-interpreter" ∉ maturinArgsFor true false sp p mp zig := by
  have hbase := find_interpreter_not_mem_manifestArgs hmp
  unfold maturinArgsFor
  simp only [Bool.true_or, if_true, List.nil_append]
  split
  · intro h
    rcases List.mem_append.mp h with h | h
    · exact hbase h
    · exact absurd (List.mem_singleton.mp h) (by decide)
  · exact hbase

theorem buildWheels_mem_jobFor {pytest zig : Bool} {mp : Option RustPath}
    {a bn sp : Bool} {proj chdir : String} {p : Platform}
    {args : List String} {ml rt : Option String}
    (h : Step.buildWheels args ml rt ∈
      (jobFor pytest zig mp a bn sp proj chdir p).steps) :
    args = maturinArgsFor a bn sp p mp zig := by
  cases p <;> cases pytest <;> cases sp <;>
    simp_all [jobFor, setupStepsFor, pytestStepsFor]

/-- C6 counterexample: with the stable-API bridge model, sdist off and
platform set ManyLinux, the single job does contain a runtime-setup
step (actions/setup-python), contradicting the claim that none is emitted
for non-Emscripten jobs; the build step indeed has no --find-interpreter. -/
theorem abi3_setup_python_counterexample :
    (generate_github ⟨none, [Platform.ManyLinux], false, false⟩ "example"
        (BridgeModel.BindingsAbi3 3 7) false ["maturin"]).map
      (fun o => o.jobs.map Job.steps)
      = some [[Step.checkout, Step.setupPython false,
          Step.buildWheels [] (some "auto") none,
          Step.uploadWheels "wheels-linux-$\x7b\x7b matrix.platform.target \x7d\x7d"]] := by
  rfl

/-- C6 amended: with the stable-API (abi3) bridge model and sdist off, no
job's build step contains the auto-interpreter-detection argument
(provided the configured manifest path is not itself that literal string),
and every non-Emscripten job does carry a runtime-setup step, since the
stable-API bridge requires a host runtime at build time. -/
theorem abi3_no_find_interpreter (cfg : GenerateCI) (project_name : String)
    (major minor : Nat) (argv : List String) (out : GithubOutput)
    (hmp : ∀ p, cfg.manifest_path = some p → p.display ≠ "--find-interpreter")
    (hgen : generate_github cfg project_name
      (BridgeModel.BindingsAbi3 major minor) false argv = some out) :
    (∀ j ∈ out.jobs, ∀ args ml rt,
      Step.buildWheels args ml rt ∈ j.steps → "--find-interpreter" ∉ args) ∧
      (∀ j ∈ out.jobs, j.name ≠ "emscripten" →
        ∃ b, Step.setupPython b ∈ j.steps) := by
  obtain ⟨chdir, rfl⟩ := generate_github_some hgen
  rw [githubOutputOf_jobs]
  constructor
  · intro j hj args ml rt hstep
    obtain ⟨p, hp, rfl⟩ := List.mem_map.mp hj
    have hargs := buildWheels_mem_jobFor hstep
    subst hargs
    exact find_interpreter_not_mem_args _ p cfg.manifest_path cfg.zig hmp
  · intro j hj hname
    obtain ⟨p, hp, rfl⟩ := List.mem_map.mp hj
    rw [jobFor_name] at hname
    have hpe : p ≠ Platform.Emscripten := by
      intro h
      subst h
      exact hname rfl
    have hsetup : setupStepsFor p
        (cfg.pytest || (BridgeModel.BindingsAbi3 major minor).needsPython)
        = [Step.setupPython (decide (p = Platform.Windows))] := by
      simp [setupStepsFor, hpe, BridgeModel.needsPython]
    refine ⟨decide (p = Platform.Windows), ?_⟩
    simp [jobFor, hsetup]

/-- C6 amended witness: at the stable-API bridge model with the default
manifest and the ManyLinux platform, both amended properties hold. -/
theorem abi3_no_find_interpreter_witness :
    (∀ p, (none : Option RustPath) = some p →
        p.display ≠ "--find-interpreter") ∧
      ∃ out, generate_github ⟨none, [Platform.ManyLinux], false, false⟩
          "example" (BridgeModel.BindingsAbi3 3 7) false ["maturin"] = some out ∧
        ((∀ j ∈ out.jobs, ∀ args ml rt,
          Step.buildWheels args ml rt ∈ j.steps →
            "--find-interpreter" ∉ args) ∧
          (∀ j ∈ out.jobs, j.name ≠ "emscripten" →
            ∃ b, Step.setupPython b ∈ j.steps)) :=
  ⟨fun _ h => Option.noConfusion h,
   githubOutputOf ⟨none, [Platform.ManyLinux], false, false⟩ "example"
     (BridgeModel.BindingsAbi3 3 7) false ["maturin"] "",
   rfl,
   abi3_no_find_interpreter ⟨none, [Platform.ManyLinux], false, false⟩
     "example" 3 7 ["maturin"] _ (fun _ h => Option.noConfusion h) rfl⟩

theorem jobFor_zig_true (pytest : Bool) (mp : Option RustPath)
    (a bn sp : Bool) (proj chdir : String) (p : Platform) :
    jobFor pytest true mp a bn sp proj chdir p =
      (if (jobFor pytest false mp a bn sp proj chdir p).name = "linux"
       then addZigToJob (jobFor pytest false mp a bn sp proj chdir p)
       else jobFor pytest false mp a bn sp proj chdir p) := by
  cases p <;> cases pytest <;> cases sp <;>
    simp [jobFor, addZigToJob, addZigToStep, maturinArgsFor, setupStepsFor,
      pytestStepsFor, Platform.display]

/-- C7: enabling the zig flag changes the generated workflow only in the
ManyLinux job's build step, whose argument list gains the --zig argument;
every other job, the header, the sdist job and the release job are
byte-for-byte what they are with the flag disabled. -/
theorem zig_frame_effect (mp : Option RustPath) (platforms : List Platform)
    (pytest : Bool) (project_name : String) (bridge_model : BridgeModel)
    (sdist : Bool) (argv : List String) (outZ outN : GithubOutput)
    (hz : generate_github ⟨mp, platforms, pytest, true⟩ project_name
      bridge_model sdist argv = some outZ)
    (hn : generate_github ⟨mp, platforms, pytest, false⟩ project_name
      bridge_model sdist argv = some outN) :
    outZ.header = outN.header ∧ outZ.sdistJob = outN.sdistJob ∧
      outZ.release = outN.release ∧
      outZ.jobs = outN.jobs.map
        (fun j => if j.name = "linux" then addZigToJob j else j) := by
  unfold generate_github at hz hn
  cases hc : chdirOf mp with
  | some ch =>
      simp only [hc, Option.some.injEq] at hz hn
      subst hz hn
      refine ⟨rfl, rfl, rfl, ?_⟩
      rw [githubOutputOf_jobs, githubOutputOf_jobs, List.map_map]
      exact List.map_congr_left (fun p _ => jobFor_zig_true _ _ _ _ _ _ ch p)
  | none =>
      simp only [hc] at hz hn
      by_cases he : (emittedPlatforms bridge_model platforms).isEmpty
      · simp only [he, if_true, Option.some.injEq] at hz hn
        subst hz hn
        refine ⟨rfl, rfl, rfl, ?_⟩
        rw [githubOutputOf_jobs, githubOutputOf_jobs, List.map_map]
        exact List.map_congr_left (fun p _ => jobFor_zig_true _ _ _ _ _ _ "" p)
      · simp [he] at hz

/-- C7 witness: at the default platforms with a bound-extension bridge
model, the frame effect holds between the zig-enabled and zig-disabled
runs. -/
theorem zig_frame_effect_witness :
    ∃ outZ outN,
      generate_github ⟨none, defaultPlatforms, false, true⟩ "example"
          (BridgeModel.Bindings "pyo3" 7) true ["maturin"] = some outZ ∧
        generate_github ⟨none, defaultPlatforms, false, false⟩ "example"
          (BridgeModel.Bindings "pyo3" 7) true ["maturin"] = some outN ∧
        (outZ.header = outN.header ∧ outZ.sdistJob = outN.sdistJob ∧
          outZ.release = outN.release ∧
          outZ.jobs = outN.jobs.map
            (fun j => if j.name = "linux" then addZigToJob j else j)) :=
  ⟨githubOutputOf ⟨none, defaultPlatforms, false, true⟩ "example"
     (BridgeModel.Bindings "pyo3" 7) true ["maturin"] "",
   githubOutputOf ⟨none, defaultPlatforms, false, false⟩ "example"
     (BridgeModel.Bindings "pyo3" 7) true ["maturin"] "",
   rfl, rfl,
   zig_frame_effect none defaultPlatforms false "example"
     (BridgeModel.Bindings "pyo3" 7) true ["maturin"] _ _ rfl rfl⟩

/-- C8: generation is deterministic — for either provider, two calls whose
configurations agree componentwise (manifest path, platform list, pytest
flag, zig flag) and that share the project name, bridge model, sdist flag
and invoking command line produce identical output; the invoking command
line is an explicit input of the model, and the generated text is a
function of the structured output, so equal outputs give byte-identical
text. -/
theorem generation_deterministic (provider : Provider) (c₁ c₂ : GenerateCI)
    (project_name : String) (bridge_model : BridgeModel) (sdist : Bool)
    (argv : List String)
    (h₁ : c₁.manifest_path = c₂.manifest_path)
    (h₂ : c₁.platforms = c₂.platforms)
    (h₃ : c₁.pytest = c₂.pytest)
    (h₄ : c₁.zig = c₂.zig) :
    generate provider c₁ project_name bridge_model sdist argv =
      generate provider c₂ project_name bridge_model sdist argv := by
  obtain ⟨m₁, p₁, t₁, z₁⟩ := c₁
  obtain ⟨m₂, p₂, t₂, z₂⟩ := c₂
  cases h₁
  cases h₂
  cases h₃
  cases h₄
  rfl

/-- C8 witness: two componentwise-equal default configurations give the
same GitHub output. -/
theorem generation_deterministic_witness :
    (⟨none, defaultPlatforms, false, false⟩ : GenerateCI).manifest_path =
        (⟨none, defaultPlatforms, false, false⟩ : GenerateCI).manifest_path ∧
      generate Provider.GitHub ⟨none, defaultPlatforms, false, false⟩
          "example" (BridgeModel.Bindings "pyo3" 7) true ["maturin"] =
        generate Provider.GitHub ⟨none, defaultPlatforms, false, false⟩
          "example" (BridgeModel.Bindings "pyo3" 7) true ["maturin"] :=
  ⟨rfl,
   generation_deterministic Provider.GitHub
     ⟨none, defaultPlatforms, false, false⟩
     ⟨none, defaultPlatforms, false, false⟩ "example"
     (BridgeModel.Bindings "pyo3" 7) true ["maturin"] rfl rfl rfl rfl⟩

/-- C9: the claim that the generators are total fails — at the root
manifest path, whose parent is None, the pytest chdir computation of
generate_github reaches manifest_path.parent().unwrap() (ci.rs line 582)
and panics as soon as one platform job is emitted; the model returns none
there. -/
theorem generate_github_panics_on_root_manifest :
    generate_github ⟨some ⟨true, []⟩, [Platform.ManyLinux], false, false⟩
        "example" (BridgeModel.Bindings "pyo3" 7) true
        ["maturin", "generate-ci", "github", "-m", "/"] = none := by
  rfl

/-- C10: the GitLab renderer's output is independent of the abstract
configuration — any two calls that differ only in bridge model, project
name, sdist flag, pytest flag, zig flag or platform set (same manifest
path and invoking command line) produce identical text. -/
theorem gitlab_output_config_independent (mp : Option RustPath)
    (argv : List String) (pl₁ pl₂ : List Platform) (py₁ py₂ z₁ z₂ : Bool)
    (n₁ n₂ : String) (b₁ b₂ : BridgeModel) (s₁ s₂ : Bool) :
    generate_gitlab ⟨mp, pl₁, py₁, z₁⟩ n₁ b₁ s₁ argv =
      generate_gitlab ⟨mp, pl₂, py₂, z₂⟩ n₂ b₂ s₂ argv := by
  rfl

end Maturin
